import Mathlib

/-!
Verification of the phone-unlock intake pipeline: a shallow embedding of
`src/schemas.py` (the `UnlockRequest` pydantic model) and `src/main.py`
(the submit/list endpoints, the notification composers and the SMTP send
helper), together with theorems settling the specification claims.

The document store (`database.py`: `create_document`, `get_documents`) is
not part of the source tree; it is modelled from the specification where a
definition needs it, and each such definition says so in its doc comment.
-/

namespace Unlock

/-- A field of the raw JSON payload as received by the endpoint: absent,
JSON null, or a string value. -/
inductive RawField where
  | missing
  | nullv
  | str (s : String)
deriving DecidableEq, Repr

/-- The raw JSON body of a `POST /api/unlock` request, one slot per
`UnlockRequest` field of `src/schemas.py`. -/
structure RawPayload where
  brand : RawField
  model : RawField
  issue : RawField
  imei : RawField
  region : RawField
  name : RawField
  email : RawField
  notes : RawField
  status : RawField
deriving DecidableEq, Repr

/-- A validated `UnlockRequest` (`src/schemas.py` lines 42-55). -/
structure UnlockRequest where
  brand : String
  model : String
  issue : String
  imei : String
  region : Option String
  name : String
  email : String
  notes : Option String
  status : String
deriving DecidableEq, Repr

/-- A validation error, tagged with the offending field. -/
inductive VErr where
  | missingField (fld : String)
  | invalid (fld : String)
deriving DecidableEq, Repr

/-- The `status` enumeration of `src/schemas.py` line 55. -/
def statusValues : List String := ["new", "in_progress", "completed", "failed"]

/-- A required `str` field: present strings pass through verbatim, absence
and null are validation errors (pydantic `Field(...)` with type `str`). -/
def reqStr (fld : String) (v : RawField) : Except VErr String :=
  match v with
  | .str s => .ok s
  | .missing => .error (.missingField fld)
  | .nullv => .error (.invalid fld)

/-- An optional `str` field (`Optional[str] = Field(None, ...)`): absence
and null become `none`, a string (empty included) passes through verbatim. -/
def optStr (v : RawField) : Option String :=
  match v with
  | .str s => some s
  | _ => none

/-- The `imei` field: required, with `min_length=8, max_length=20`
(`src/schemas.py` line 50). -/
def validImei (v : RawField) : Except VErr String :=
  match reqStr "imei" v with
  | .error e => .error e
  | .ok s =>
    if 8 ≤ s.length && s.length ≤ 20 then .ok s else .error (.invalid "imei")

/-- Splits a character list on a separator character, keeping empty
pieces (the behaviour of Python `str.split(sep)`). -/
def splitOnCharAux (c : Char) : List Char → List Char → List (List Char)
  | [], acc => [acc.reverse]
  | x :: xs, acc =>
    if x = c then acc.reverse :: splitOnCharAux c xs []
    else splitOnCharAux c xs (x :: acc)

/-- Splits a character list on a separator character. -/
def splitOnChar (c : Char) (l : List Char) : List (List Char) :=
  splitOnCharAux c l []

/-- Modelled from the spec: the `EmailStr` syntactic check of
`src/schemas.py` line 53 is performed by the pydantic email-validator
dependency, which is not part of this repository. The spec asks for an
RFC-5322-style syntactic validation under which `"a@b.co"` passes and
`"not-an-email"` fails; this models it as one `@` separating a non-empty
local part from a dotted domain with non-empty labels. -/
def emailSyntaxOk (s : String) : Bool :=
  match splitOnChar '@' s.data with
  | [lp, domain] =>
    !lp.isEmpty && !domain.isEmpty &&
      decide (2 ≤ (splitOnChar '.' domain).length) &&
      (splitOnChar '.' domain).all (fun p => !p.isEmpty)
  | _ => false

/-- The `email` field: required, then checked syntactically. -/
def validEmail (v : RawField) : Except VErr String :=
  match reqStr "email" v with
  | .error e => .error e
  | .ok s => if emailSyntaxOk s then .ok s else .error (.invalid "email")

/-- The `status` field: `Literal['new','in_progress','completed','failed']`
with declared default `'new'` when the field is absent
(`src/schemas.py` line 55). -/
def validStatus (v : RawField) : Except VErr String :=
  match v with
  | .missing => .ok "new"
  | .nullv => .error (.invalid "status")
  | .str s => if statusValues.contains s then .ok s else .error (.invalid "status")

/-- Validation of a raw payload against the `UnlockRequest` model: each
field is checked as `src/schemas.py` declares it; the first failing check
yields the validation error. -/
def validate (raw : RawPayload) : Except VErr UnlockRequest :=
  match reqStr "brand" raw.brand with
  | .error e => .error e
  | .ok brand =>
  match reqStr "model" raw.model with
  | .error e => .error e
  | .ok model =>
  match reqStr "issue" raw.issue with
  | .error e => .error e
  | .ok issue =>
  match validImei raw.imei with
  | .error e => .error e
  | .ok imei =>
  match reqStr "name" raw.name with
  | .error e => .error e
  | .ok name =>
  match validEmail raw.email with
  | .error e => .error e
  | .ok email =>
  match validStatus raw.status with
  | .error e => .error e
  | .ok status =>
    .ok { brand := brand, model := model, issue := issue, imei := imei,
          region := optStr raw.region, name := name, email := email,
          notes := optStr raw.notes, status := status }

/-- Whether an `Except` computation succeeded. -/
def exceptOk {ε α : Type} (x : Except ε α) : Bool :=
  match x with
  | .ok _ => true
  | .error _ => false

/-! ## Document store

`database.py` (`create_document`, `get_documents`) is imported by
`src/main.py` but is not part of the source tree, so the store is modelled
from the specification (§4.2 Document Store Adapter). -/

/-- Modelled from the spec: the persistent `unlockrequest` collection kept
by `database.py`. Documents are stored in insertion order, each under a
store-generated identifier; `nextId` is the store's id counter, whose
stringification is the next generated identifier. -/
structure Store where
  nextId : Nat
  docs : List (String × UnlockRequest)
deriving DecidableEq, Repr

/-- Modelled from the spec: `create_document` of `database.py` (§4.2
`insert(collectionName, document) → id`): appends the document to the
collection and returns a store-generated, stringifiable identifier. -/
def create_document (store : Store) (req : UnlockRequest) : String × Store :=
  let id := toString store.nextId
  (id, { nextId := store.nextId + 1, docs := store.docs ++ [(id, req)] })

/-- Modelled from the spec: `get_documents` of `database.py` (§4.2
`list(collectionName, limit)`): returns the stored documents in natural
store order, capped at `limit`. The spec (§4.2, §9) states that the source
has no lower-bound check on `limit` and leaves the behaviour for
non-positive limits undefined; this model's choice of `Int.toNat`
truncation for that undefined case is arbitrary and no theorem below about
non-positive limits depends on it. -/
def get_documents (store : Store) (limit : Int) : List (String × UnlockRequest) :=
  store.docs.take limit.toNat

/-! ## Endpoints (`src/main.py`) -/

/-- An error surfaced by an endpoint: a 422 validation failure or a 500
server error. -/
inductive ApiError where
  | validation (e : VErr)
  | server
deriving DecidableEq, Repr

/-- The acknowledgment message of `submit_unlock_request`
(`src/main.py` line 166). -/
def submitMessage : String := "Request received. We\x27ll email you with next steps."

/-- `submit_unlock_request` (`src/main.py` lines 159-168): validate the
payload (the framework rejects invalid bodies with a 422 before the
handler runs, leaving the store untouched), persist the validated request
via `create_document`, and return the generated id with the acknowledgment
message. The two notification tasks scheduled on lines 164-165 run after
the response; they are modelled by `runNotifications` below. -/
def submit_unlock_request (raw : RawPayload) (store : Store) :
    Except ApiError (String × String) × Store :=
  match validate raw with
  | .error e => (.error (.validation e), store)
  | .ok req =>
    let r := create_document store req
    (.ok (r.1, submitMessage), r.2)

/-- The `limit` value `list_unlock_requests` passes to `get_documents`
(`src/main.py` lines 171-173): the caller's value verbatim, `50` when
omitted; no bound check of any kind. -/
def forwardedLimit (limit : Option Int) : Int := limit.getD 50

/-- `list_unlock_requests` (`src/main.py` lines 170-180): delegates to
`get_documents` with the forwarded limit and stringifies ids (ids are
already strings in this model). -/
def list_unlock_requests (store : Store) (limit : Option Int) :
    Except ApiError (List (String × UnlockRequest)) :=
  .ok (get_documents store (forwardedLimit limit))

/-! ## Email notification layer (`src/main.py` lines 73-151) -/

/-- The SMTP-related environment variables read by `_send_email_smtp` and
the composers: `none` models an unset variable. -/
structure SmtpEnv where
  smtpHost : Option String
  smtpPort : Option String
  smtpUser : Option String
  smtpPass : Option String
  fromEmail : Option String
  adminEmail : Option String
deriving DecidableEq, Repr

/-- Python `int(...)` applied to an environment string (`src/main.py`
line 75): strips surrounding whitespace, accepts an optional sign followed
by digits, and raises `ValueError` (here: `none`) on anything else. -/
def pyParseInt (s : String) : Option Int :=
  let t := ((s.data.dropWhile Char.isWhitespace).reverse.dropWhile Char.isWhitespace).reverse
  match t with
  | [] => none
  | c :: rest =>
    let neg : Bool := c = '-'
    let ds := if c = '-' || c = '+' then rest else c :: rest
    if ds.isEmpty || !ds.all Char.isDigit then none
    else
      let n : Nat := ds.foldl (fun acc d => acc * 10 + (d.toNat - 48)) 0
      if neg then some (-(n : Int)) else some (n : Int)

/-- Python truthiness of `os.getenv(...)` results as used on line 80 of
`src/main.py` (`not host` etc.): unset and empty string are both falsy. -/
def falsyEnv (v : Option String) : Bool :=
  match v with
  | none => true
  | some s => s.isEmpty

/-- An outbound email message: subject, recipient, HTML body, plain-text
body (the `Message` of spec §4.3). -/
structure Message where
  subject : String
  recipient : String
  htmlBody : String
  textBody : String
deriving DecidableEq, Repr

/-- An error raised inside a notification send: `portParse` models the
`ValueError` from `int(os.getenv("SMTP_PORT", "587"))` on line 75,
`transport` models any `smtplib` connection/authentication/send failure
raised by lines 93-96. -/
inductive EmailErr where
  | portParse
  | transport
deriving DecidableEq, Repr

/-- `_send_email_smtp` (`src/main.py` lines 73-97). The port is parsed
first (line 75, may raise); if host, user or password is unset or empty
the function logs and returns without any network operation (lines 80-83,
result `ok none`); otherwise the message is sent over the transport
(lines 93-97, result `ok (some msg)`), which raises `transport` when the
SMTP conversation fails (`transportFails`). The `From` header computed on
line 78 never raises and is elided from the model. -/
def send_email_smtp (env : SmtpEnv) (transportFails : Bool) (msg : Message) :
    Except EmailErr (Option Message) :=
  match pyParseInt ((env.smtpPort).getD "587") with
  | none => .error .portParse
  | some _ =>
    if falsyEnv env.smtpHost || falsyEnv env.smtpUser || falsyEnv env.smtpPass then
      .ok none
    else if transportFails then
      .error .transport
    else
      .ok (some msg)

/-- Python `x or '-'` as used for the optional fields in the message
bodies (`src/main.py` lines 111, 114, 122, 123, 140, 148): `None` and the
empty string both render as `"-"`. -/
def orDash (v : Option String) : String :=
  match v with
  | none => "-"
  | some s => if s.isEmpty then "-" else s

/-- The administrator message composed by `send_admin_notification`
(`src/main.py` lines 100-125): recipient `ADMIN_EMAIL` with its fixed
fallback, subject from brand, model and id, bodies enumerating the request
fields with `-` for missing optionals. -/
def adminMessage (env : SmtpEnv) (req : UnlockRequest) (docId : String) : Message :=
  { subject := "New Unlock Request • " ++ req.brand ++ " " ++ req.model ++ " • " ++ docId
    recipient := (env.adminEmail).getD "process@phonelockremover.com"
    htmlBody :=
      "\n    <h2>New Unlock Request</h2>\n    <p><strong>Reference ID:</strong> "
      ++ docId ++ "</p>\n    <ul>\n      <li><strong>Brand:</strong> "
      ++ req.brand ++ "</li>\n      <li><strong>Model:</strong> "
      ++ req.model ++ "</li>\n      <li><strong>Issue:</strong> "
      ++ req.issue ++ "</li>\n      <li><strong>IMEI/Serial:</strong> "
      ++ req.imei ++ "</li>\n      <li><strong>Region/Carrier:</strong> "
      ++ orDash req.region ++ "\n      <li><strong>Name:</strong> "
      ++ req.name ++ "</li>\n      <li><strong>Email:</strong> "
      ++ req.email ++ "</li>\n      <li><strong>Notes:</strong> "
      ++ orDash req.notes ++ "\n    </ul>\n    <p>Status: "
      ++ req.status ++ "</p>\n    "
    textBody :=
      "New Unlock Request\nID: " ++ docId ++ "\nBrand: " ++ req.brand
      ++ "\nModel: " ++ req.model ++ "\nIssue: " ++ req.issue
      ++ "\nIMEI/Serial: " ++ req.imei ++ "\nRegion: " ++ orDash req.region
      ++ "\nName: " ++ req.name ++ "\nEmail: " ++ req.email
      ++ "\nNotes: " ++ orDash req.notes ++ "\nStatus: " ++ req.status ++ "\n" }

/-- The customer acknowledgment message composed by
`send_customer_autoresponse` (`src/main.py` lines 129-150): recipient is
the customer's email, fixed subject, bodies restating device, issue, imei,
region and the id. -/
def customerMessage (req : UnlockRequest) (docId : String) : Message :=
  { subject := "We received your unlock request"
    recipient := req.email
    htmlBody :=
      "\n    <h2>Thanks, " ++ req.name
      ++ "!</h2>\n    <p>We\x27ve received your request and will get back to you shortly.</p>\n    <p><strong>Reference ID:</strong> "
      ++ docId ++ "</p>\n    <p>Summary:</p>\n    <ul>\n      <li><strong>Device:</strong> "
      ++ req.brand ++ " " ++ req.model ++ "</li>\n      <li><strong>Issue:</strong> "
      ++ req.issue ++ "</li>\n      <li><strong>IMEI/Serial:</strong> "
      ++ req.imei ++ "</li>\n      <li><strong>Region/Carrier:</strong> "
      ++ orDash req.region
      ++ "\n    </ul>\n    <p>If anything is incorrect, reply to this email with corrections.</p>\n    <p>— PhoneLockRemover</p>\n    "
    textBody :=
      "Thanks, " ++ req.name ++ "! We received your unlock request.\nReference ID: "
      ++ docId ++ "\nDevice: " ++ req.brand ++ " " ++ req.model
      ++ "\nIssue: " ++ req.issue ++ "\nIMEI/Serial: " ++ req.imei
      ++ "\nRegion/Carrier: " ++ orDash req.region
      ++ "\nWe\x27ll contact you at this email once we review.\n" }

/-- `send_admin_notification` (`src/main.py` lines 100-126): compose the
administrator message and hand it to `_send_email_smtp`. The function body
contains no exception handler, so any error of the send propagates. -/
def send_admin_notification (env : SmtpEnv) (transportFails : Bool)
    (req : UnlockRequest) (docId : String) : Except EmailErr (Option Message) :=
  send_email_smtp env transportFails (adminMessage env req docId)

/-- `send_customer_autoresponse` (`src/main.py` lines 129-151): compose
the customer message and hand it to `_send_email_smtp`. No exception
handler here either. -/
def send_customer_autoresponse (env : SmtpEnv) (transportFails : Bool)
    (req : UnlockRequest) (docId : String) : Except EmailErr (Option Message) :=
  send_email_smtp env transportFails (customerMessage req docId)

/-- Modelled from the spec: the deferred execution of the two tasks queued
on `src/main.py` lines 164-165. Per spec §4.5 step 4 the background unit
runs the administrator send and then the customer send, after the response
has gone out; neither task function contains an exception handler, so an
error aborts the sequence and propagates out of the background unit. The
result pairs the outcome with whether the customer send was reached. -/
def runNotifications (env : SmtpEnv) (transportFails : Bool)
    (req : UnlockRequest) (docId : String) :
    Except EmailErr (Option Message × Option Message) × Bool :=
  match send_admin_notification env transportFails req docId with
  | .error e => (.error e, false)
  | .ok m1 =>
    match send_customer_autoresponse env transportFails req docId with
    | .error e => (.error e, true)
    | .ok m2 => (.ok (m1, m2), true)

/-! ## Concrete fixtures -/

/-- The concrete valid submission of spec §8, status omitted. -/
def rawGood : RawPayload :=
  { brand := .str "Apple", model := .str "iPhone 12", issue := .str "Carrier Lock",
    imei := .str "123456789012", region := .missing, name := .str "Jane Doe",
    email := .str "jane@example.com", notes := .missing, status := .missing }

/-- The validated form of `rawGood`. -/
def reqGood : UnlockRequest :=
  { brand := "Apple", model := "iPhone 12", issue := "Carrier Lock",
    imei := "123456789012", region := none, name := "Jane Doe",
    email := "jane@example.com", notes := none, status := "new" }

/-- An empty store. -/
def emptyStore : Store := { nextId := 0, docs := [] }

/-- `rawGood` with the four required text fields set to the empty string. -/
def rawEmptyTexts : RawPayload :=
  { rawGood with brand := .str "", model := .str "", issue := .str "", name := .str "" }

/-- The validated form of `rawEmptyTexts`. -/
def reqEmptyTexts : UnlockRequest :=
  { reqGood with brand := "", model := "", issue := "", name := "" }

/-- `rawGood` with the `brand` field absent. -/
def rawNoBrand : RawPayload := { rawGood with brand := .missing }

/-- `rawGood` with the `imei` field replaced by an arbitrary string. -/
def imeiPayload (s : String) : RawPayload := { rawGood with imei := .str s }

/-- `rawGood` with a client-supplied `in_progress` status. -/
def rawInProgress : RawPayload := { rawGood with status := .str "in_progress" }

/-- The validated form of `rawInProgress`. -/
def reqInProgress : UnlockRequest := { reqGood with status := "in_progress" }

/-- An environment with a fully configured SMTP transport. -/
def envConfigured : SmtpEnv :=
  { smtpHost := some "smtp.example.com", smtpPort := some "587",
    smtpUser := some "mailer", smtpPass := some "hunter2",
    fromEmail := none, adminEmail := none }

/-- An environment with no SMTP variable set at all. -/
def envUnset : SmtpEnv :=
  { smtpHost := none, smtpPort := none, smtpUser := none, smtpPass := none,
    fromEmail := none, adminEmail := none }

/-- An environment with SMTP unconfigured (no host, no credentials) but
`SMTP_PORT` set to a non-numeric string. -/
def envBadPort : SmtpEnv := { envUnset with smtpPort := some "abc" }

/-! ## Inversion lemmas for validation -/

theorem reqStr_ok_iff {fld : String} {v : RawField} {s : String} :
    reqStr fld v = .ok s ↔ v = .str s := by
  cases v <;> simp [reqStr]

theorem validStatus_ok {v : RawField} {s : String} (h : validStatus v = .ok s) :
    s ∈ statusValues ∧ (v = .missing → s = "new") ∧ ∀ t, v = .str t → s = t := by
  cases v with
  | missing =>
    simp only [validStatus] at h
    cases h
    exact ⟨by decide, fun _ => rfl, fun t ht => by cases ht⟩
  | nullv => simp [validStatus] at h
  | str t =>
    simp only [validStatus] at h
    by_cases hc : statusValues.contains t
    · rw [if_pos hc] at h
      cases h
      refine ⟨by simpa using hc, ?_, ?_⟩
      · intro hm
        cases hm
      · intro u hu
        cases hu
        rfl
    · rw [if_neg hc] at h
      cases h

theorem validate_ok_elim {raw : RawPayload} {req : UnlockRequest}
    (h : validate raw = .ok req) :
    reqStr "brand" raw.brand = .ok req.brand ∧
    reqStr "model" raw.model = .ok req.model ∧
    reqStr "issue" raw.issue = .ok req.issue ∧
    validImei raw.imei = .ok req.imei ∧
    reqStr "name" raw.name = .ok req.name ∧
    validEmail raw.email = .ok req.email ∧
    validStatus raw.status = .ok req.status ∧
    req.region = optStr raw.region ∧
    req.notes = optStr raw.notes := by
  unfold validate at h
  cases hb : reqStr "brand" raw.brand <;> rw [hb] at h
  case error => cases h
  case ok b =>
  cases hm : reqStr "model" raw.model <;> rw [hm] at h
  case error => cases h
  case ok m =>
  cases hi : reqStr "issue" raw.issue <;> rw [hi] at h
  case error => cases h
  case ok i =>
  cases him : validImei raw.imei <;> rw [him] at h
  case error => cases h
  case ok im =>
  cases hn : reqStr "name" raw.name <;> rw [hn] at h
  case error => cases h
  case ok n =>
  cases he : validEmail raw.email <;> rw [he] at h
  case error => cases h
  case ok em =>
  cases hs : validStatus raw.status <;> rw [hs] at h
  case error => cases h
  case ok st =>
  cases h
  exact ⟨rfl, rfl, rfl, rfl, rfl, rfl, rfl, rfl, rfl⟩

theorem validate_isOk (raw : RawPayload) :
    exceptOk (validate raw) =
      (exceptOk (reqStr "brand" raw.brand) && exceptOk (reqStr "model" raw.model) &&
       exceptOk (reqStr "issue" raw.issue) && exceptOk (validImei raw.imei) &&
       exceptOk (reqStr "name" raw.name) && exceptOk (validEmail raw.email) &&
       exceptOk (validStatus raw.status)) := by
  unfold validate
  cases reqStr "brand" raw.brand <;>
  cases reqStr "model" raw.model <;>
  cases reqStr "issue" raw.issue <;>
  cases validImei raw.imei <;>
  cases reqStr "name" raw.name <;>
  cases validEmail raw.email <;>
  cases validStatus raw.status <;>
  rfl

/-! ## Claim theorems -/

/-- C4 (counterexample): a payload whose `brand`, `model`, `issue` and
`name` are all the empty string passes validation, so validation does not
reject empty strings in these required fields. -/
theorem C4_counterexample :
    validate rawEmptyTexts = .ok reqEmptyTexts ∧
    reqEmptyTexts.brand = "" ∧ reqEmptyTexts.model = "" ∧
    reqEmptyTexts.issue = "" ∧ reqEmptyTexts.name = "" :=
  ⟨rfl, rfl, rfl, rfl, rfl⟩

/-- C4 (amended): `brand`, `model`, `issue` and `name` are required fields
whose string values pass through verbatim — validation fails when any of
them is absent or null — but validation does not enforce non-emptiness:
the empty string is accepted (see the counterexample). -/
theorem C4_required_verbatim (raw : RawPayload) (req : UnlockRequest)
    (h : validate raw = .ok req) :
    raw.brand = .str req.brand ∧ raw.model = .str req.model ∧
    raw.issue = .str req.issue ∧ raw.name = .str req.name := by
  obtain ⟨hb, hm, hi, _, hn, _, _, _, _⟩ := validate_ok_elim h
  exact ⟨reqStr_ok_iff.mp hb, reqStr_ok_iff.mp hm, reqStr_ok_iff.mp hi,
    reqStr_ok_iff.mp hn⟩

/-- C4 witness: the amended theorem applied to the concrete valid payload. -/
theorem C4_witness :
    validate rawGood = .ok reqGood ∧
    (rawGood.brand = .str reqGood.brand ∧ rawGood.model = .str reqGood.model ∧
     rawGood.issue = .str reqGood.issue ∧ rawGood.name = .str reqGood.name) :=
  ⟨rfl, C4_required_verbatim rawGood reqGood rfl⟩

/-- C6: for every payload missing at least one required field, submit
fails with a validation error and the store is returned unchanged (no
write is performed). -/
theorem C6_missing_required (raw : RawPayload) (store : Store)
    (h : raw.brand = .missing ∨ raw.model = .missing ∨ raw.issue = .missing ∨
         raw.imei = .missing ∨ raw.name = .missing ∨ raw.email = .missing) :
    ∃ e, submit_unlock_request raw store = (.error (.validation e), store) := by
  cases hv : validate raw with
  | error e =>
    exact ⟨e, by simp [submit_unlock_request, hv]⟩
  | ok req =>
    exfalso
    obtain ⟨hb, hm, hi, him, hn, he, _, _, _⟩ := validate_ok_elim hv
    rcases h with h | h | h | h | h | h
    · rw [h] at hb
      simp [reqStr] at hb
    · rw [h] at hm
      simp [reqStr] at hm
    · rw [h] at hi
      simp [reqStr] at hi
    · rw [h] at him
      simp [validImei, reqStr] at him
    · rw [h] at hn
      simp [reqStr] at hn
    · rw [h] at he
      simp [validEmail, reqStr] at he

/-- C6 witness: the theorem applied to a payload with `brand` absent and
the empty store. -/
theorem C6_witness :
    rawNoBrand.brand = RawField.missing ∧
    ∃ e, submit_unlock_request rawNoBrand emptyStore =
      (.error (.validation e), emptyStore) :=
  ⟨rfl, C6_missing_required rawNoBrand emptyStore (Or.inl rfl)⟩

/-- C7: with every other field held at a valid value, validation of a
payload succeeds exactly when the `imei` length lies in `[8, 20]`; in
particular lengths 7 and 21 fail and the boundary lengths 8 and 20
succeed. -/
theorem C7_imei_bounds (s : String) :
    exceptOk (validate (imeiPayload s)) = (8 ≤ s.length && s.length ≤ 20) := by
  rw [validate_isOk]
  rw [show (imeiPayload s).imei = RawField.str s from rfl]
  rw [show exceptOk (reqStr "brand" (imeiPayload s).brand) = true from rfl]
  rw [show exceptOk (reqStr "model" (imeiPayload s).model) = true from rfl]
  rw [show exceptOk (reqStr "issue" (imeiPayload s).issue) = true from rfl]
  rw [show exceptOk (reqStr "name" (imeiPayload s).name) = true from rfl]
  rw [show exceptOk (validEmail (imeiPayload s).email) = true from rfl]
  rw [show exceptOk (validStatus (imeiPayload s).status) = true from rfl]
  cases hc : (decide (8 ≤ s.length) && decide (s.length ≤ 20)) <;>
    simp [validImei, reqStr, exceptOk, hc]

/-- C7 witness: the theorem instantiated at the boundary lengths 8 and 20
and the failing lengths 7 and 21. -/
theorem C7_witness :
    exceptOk (validate (imeiPayload "12345678")) = true ∧
    exceptOk (validate (imeiPayload "12345678901234567890")) = true ∧
    exceptOk (validate (imeiPayload "1234567")) = false ∧
    exceptOk (validate (imeiPayload "123456789012345678901")) = false := by
  refine ⟨?_, ?_, ?_, ?_⟩
  · rw [C7_imei_bounds "12345678"]
    decide
  · rw [C7_imei_bounds "12345678901234567890"]
    decide
  · rw [C7_imei_bounds "1234567"]
    decide
  · rw [C7_imei_bounds "123456789012345678901"]
    decide

/-- C8: the optional fields `region` and `notes` never influence whether
validation succeeds — in particular the empty string is not a validation
failure — and every consumer of these fields (both notification
composers, via `x or '-'`) renders an empty-string value identically to an
absent one. -/
theorem C8_empty_optionals (raw : RawPayload) (v w : RawField) (env : SmtpEnv)
    (req : UnlockRequest) (docId : String) :
    exceptOk (validate { raw with region := v, notes := w }) =
      exceptOk (validate raw) ∧
    adminMessage env { req with region := some "", notes := some "" } docId =
      adminMessage env { req with region := none, notes := none } docId ∧
    customerMessage { req with region := some "", notes := some "" } docId =
      customerMessage { req with region := none, notes := none } docId := by
  refine ⟨?_, rfl, rfl⟩
  rw [validate_isOk, validate_isOk]

/-- C8 witness: the theorem applied to the concrete valid payload with
both optionals set to the empty string. -/
theorem C8_witness :
    exceptOk (validate { rawGood with region := RawField.str "", notes := RawField.str "" }) =
      exceptOk (validate rawGood) ∧
    adminMessage envUnset { reqGood with region := some "", notes := some "" } "1" =
      adminMessage envUnset { reqGood with region := none, notes := none } "1" ∧
    customerMessage { reqGood with region := some "", notes := some "" } "1" =
      customerMessage { reqGood with region := none, notes := none } "1" :=
  C8_empty_optionals rawGood (RawField.str "") (RawField.str "") envUnset reqGood "1"

/-- C9: every validated request carries a status from the enumeration
`{new, in_progress, completed, failed}`; an absent status is substituted
by `new`, and a supplied status is passed through and must itself be in
the enumeration (so values outside it are rejected). -/
theorem C9_status_enum (raw : RawPayload) (req : UnlockRequest)
    (h : validate raw = .ok req) :
    req.status ∈ statusValues ∧
    (raw.status = RawField.missing → req.status = "new") ∧
    (∀ s, raw.status = RawField.str s → req.status = s ∧ s ∈ statusValues) := by
  obtain ⟨_, _, _, _, _, _, hs, _, _⟩ := validate_ok_elim h
  obtain ⟨h1, h2, h3⟩ := validStatus_ok hs
  refine ⟨h1, h2, fun s hstr => ?_⟩
  have := h3 s hstr
  exact ⟨this, this ▸ h1⟩

/-- C9 witness: the theorem applied to the concrete valid payload, whose
status is omitted and defaulted to `new`. -/
theorem C9_witness :
    validate rawGood = .ok reqGood ∧
    (reqGood.status ∈ statusValues ∧
     (rawGood.status = RawField.missing → reqGood.status = "new") ∧
     (∀ s, rawGood.status = RawField.str s → reqGood.status = s ∧ s ∈ statusValues)) :=
  ⟨rfl, C9_status_enum rawGood reqGood rfl⟩

/-- C10: a client-supplied status from the enumeration is persisted
unchanged — the validated request keeps the supplied value and submit
stores exactly that request, so a record can be created already marked
`in_progress`, `completed` or `failed`. -/
theorem C10_status_passthrough (raw : RawPayload) (store : Store)
    (req : UnlockRequest) (s : String)
    (hv : validate raw = .ok req) (hst : raw.status = RawField.str s) :
    req.status = s ∧
    ∃ id store', submit_unlock_request raw store = (.ok (id, submitMessage), store') ∧
      (id, req) ∈ store'.docs := by
  obtain ⟨_, _, _, _, _, _, hs, _, _⟩ := validate_ok_elim hv
  obtain ⟨_, _, h3⟩ := validStatus_ok hs
  refine ⟨h3 s hst, toString store.nextId,
    { nextId := store.nextId + 1,
      docs := store.docs ++ [(toString store.nextId, req)] }, ?_, ?_⟩
  · simp [submit_unlock_request, hv, create_document]
  · simp

/-- C1: for every payload that passes validation, submit persists it and
returns the store-generated id with the acknowledgment message, and the
list endpoint (with a limit covering the store) yields exactly one record
under that id, whose fields equal the validated input; the status is
`new` when the payload omitted it. The freshness hypothesis is the
store's spec-guaranteed uniqueness of generated identifiers. -/
theorem C1_submit_then_list (raw : RawPayload) (store : Store)
    (req : UnlockRequest) (L : Nat)
    (hv : validate raw = .ok req)
    (hfresh : ∀ p ∈ store.docs, p.1 ≠ toString store.nextId)
    (hL : store.docs.length + 1 ≤ L) :
    ∃ id store' docs,
      submit_unlock_request raw store = (.ok (id, submitMessage), store') ∧
      list_unlock_requests store' (some (L : Int)) = .ok docs ∧
      docs.filter (fun p => p.1 == id) = [(id, req)] ∧
      (raw.status = RawField.missing → req.status = "new") := by
  obtain ⟨_, _, _, _, _, _, hs, _, _⟩ := validate_ok_elim hv
  obtain ⟨_, h2, _⟩ := validStatus_ok hs
  refine ⟨toString store.nextId,
    { nextId := store.nextId + 1,
      docs := store.docs ++ [(toString store.nextId, req)] },
    store.docs ++ [(toString store.nextId, req)], ?_, ?_, ?_, h2⟩
  · simp [submit_unlock_request, hv, create_document]
  · simp only [list_unlock_requests, forwardedLimit, get_documents, Option.getD]
    congr 1
    apply List.take_of_length_le
    simpa using hL
  · rw [List.filter_append]
    have h1 : store.docs.filter (fun p => p.1 == toString store.nextId) = [] :=
      List.filter_eq_nil_iff.mpr (fun p hp => by simpa using hfresh p hp)
    rw [h1]
    simp

/-- C1 witness: the theorem applied to the concrete valid payload and the
empty store. -/
theorem C1_witness :
    validate rawGood = .ok reqGood ∧
    (∀ p ∈ emptyStore.docs, p.1 ≠ toString emptyStore.nextId) ∧
    emptyStore.docs.length + 1 ≤ 1 ∧
    (∃ id store' docs,
      submit_unlock_request rawGood emptyStore = (.ok (id, submitMessage), store') ∧
      list_unlock_requests store' (some ((1 : Nat) : Int)) = .ok docs ∧
      docs.filter (fun p => p.1 == id) = [(id, reqGood)] ∧
      (rawGood.status = RawField.missing → reqGood.status = "new")) :=
  ⟨rfl, by simp [emptyStore], by simp [emptyStore],
    C1_submit_then_list rawGood emptyStore reqGood 1 rfl
      (by simp [emptyStore]) (by simp [emptyStore])⟩

/-- C2 (counterexample): with SMTP fully configured and a failing
transport, the deferred notification run ends in an uncaught transport
error raised inside the administrator send, and the customer send is
never attempted — no failure is caught, and one send's failure does abort
the other. -/
theorem C2_counterexample :
    runNotifications envConfigured true reqGood "1" =
      (.error .transport, false) := rfl

/-- C2 (amended): neither notification function contains an exception
handler, so whenever the administrator send raises, the error propagates
uncaught out of the deferred notification run and the customer send is
never attempted; the sends are failure-free only on the unconfigured
no-op path. -/
theorem C2_admin_failure_aborts (env : SmtpEnv) (tf : Bool)
    (req : UnlockRequest) (docId : String) (e : EmailErr)
    (h : send_admin_notification env tf req docId = .error e) :
    runNotifications env tf req docId = (.error e, false) := by
  simp [runNotifications, h]

/-- C2 witness: the amended theorem applied to the configured environment
with a failing transport. -/
theorem C2_witness :
    send_admin_notification envConfigured true reqGood "1" = .error .transport ∧
    runNotifications envConfigured true reqGood "1" = (.error .transport, false) :=
  ⟨rfl, C2_admin_failure_aborts envConfigured true reqGood "1" .transport rfl⟩

/-- C3 (counterexample): with no SMTP host and no credentials configured
but `SMTP_PORT` set to the non-numeric string `"abc"`, the send raises
the port-parse `ValueError` (line 75 runs before the unconfigured guard
of line 80), so it does not return success as a no-op. -/
theorem C3_counterexample :
    send_email_smtp envBadPort false (customerMessage reqGood "1") =
      .error .portParse := rfl

/-- C3 (amended): provided the configured `SMTP_PORT` value (default
`"587"`) parses as an integer, whenever the host or either credential is
unset or empty the send performs no network operation and returns success
as a no-op without raising; and the submit endpoint's outcome never
depends on the mail configuration — it succeeds exactly when validation
does, since the sends are deferred past the response. -/
theorem C3_noop_when_unconfigured (env : SmtpEnv) (tf : Bool) (msg : Message)
    (p : Int)
    (hp : pyParseInt ((env.smtpPort).getD "587") = some p)
    (hcfg : (falsyEnv env.smtpHost || falsyEnv env.smtpUser ||
             falsyEnv env.smtpPass) = true) :
    send_email_smtp env tf msg = .ok none ∧
    ∀ raw store, exceptOk (submit_unlock_request raw store).1 =
      exceptOk (validate raw) := by
  constructor
  · simp [send_email_smtp, hp, hcfg]
  · intro raw store
    cases hv : validate raw <;> simp [submit_unlock_request, hv, exceptOk]

/-- C3 witness: the amended theorem applied to the fully unset
environment, whose default port string parses. -/
theorem C3_witness :
    pyParseInt ((envUnset.smtpPort).getD "587") = some 587 ∧
    (falsyEnv envUnset.smtpHost || falsyEnv envUnset.smtpUser ||
     falsyEnv envUnset.smtpPass) = true ∧
    (send_email_smtp envUnset false (customerMessage reqGood "1") = .ok none ∧
     ∀ raw store, exceptOk (submit_unlock_request raw store).1 =
       exceptOk (validate raw)) :=
  ⟨rfl, rfl, C3_noop_when_unconfigured envUnset false (customerMessage reqGood "1")
    587 rfl rfl⟩

/-- C5 (counterexample): the endpoint neither rejects nor clamps a
non-positive limit: listing with limit `-1` succeeds and forwards `-1`
verbatim to the store. -/
theorem C5_counterexample :
    forwardedLimit (some (-1)) = -1 ∧
    exceptOk (list_unlock_requests emptyStore (some (-1))) = true :=
  ⟨rfl, rfl⟩

/-- C5 (amended): the number of documents returned by list is capped at
the forwarded limit, which defaults to 50 when the caller omits it; a
non-positive limit is neither rejected nor clamped — it is forwarded
unchanged to the store (see the counterexample), whose behaviour for such
limits the specification leaves undefined. -/
theorem C5_limit_cap (store : Store) (lo : Option Int)
    (docs : List (String × UnlockRequest))
    (h : list_unlock_requests store lo = .ok docs) :
    docs.length ≤ (forwardedLimit lo).toNat ∧ forwardedLimit none = 50 := by
  refine ⟨?_, rfl⟩
  have hd : docs = store.docs.take (forwardedLimit lo).toNat := by
    have := h.symm
    simpa [list_unlock_requests, get_documents] using this
  rw [hd]
  exact List.length_take_le _ _

/-- C5 witness: the amended theorem applied to the empty store with
limit 3. -/
theorem C5_witness :
    list_unlock_requests emptyStore (some 3) = .ok [] ∧
    (([] : List (String × UnlockRequest)).length ≤ (forwardedLimit (some 3)).toNat ∧
     forwardedLimit none = 50) :=
  ⟨rfl, C5_limit_cap emptyStore (some 3) [] rfl⟩

/-- C10 witness: the theorem applied to a payload supplying
`in_progress`, on the empty store. -/
theorem C10_witness :
    validate rawInProgress = .ok reqInProgress ∧
    rawInProgress.status = RawField.str "in_progress" ∧
    (reqInProgress.status = "in_progress" ∧
     ∃ id store', submit_unlock_request rawInProgress emptyStore =
        (.ok (id, submitMessage), store') ∧ (id, reqInProgress) ∈ store'.docs) :=
  ⟨rfl, rfl, C10_status_passthrough rawInProgress emptyStore reqInProgress
    "in_progress" rfl rfl⟩

end Unlock
